import Mathlib

/-!
Shallow embedding of the eDOMOS door-alarm controller core
(door_alarm_system/app_with_html_errors.py and app.py): the duplicate
suppressing event pipeline, the door-state monitor edge handlers, the
cancellable alarm timer, and the email dispatcher, together with proofs
of the specified properties.

Times are modelled as rationals (seconds, as returned by the clock).
Event types and descriptions are strings, exactly as in the source.
-/

namespace DoorAlarm

/-- Duplicate-prevention variables of app_with_html_errors.py
(last_logged_door_state, last_logged_alarm_state, last_event_timestamps).
The Python value None for last_logged_door_state is Option.none. -/
structure DedupVars where
  last_logged_door_state : Option Bool
  last_logged_alarm_state : Bool
  last_event_timestamps : List (String × Rat)
deriving DecidableEq

/-- A persisted EventLog row (models.py): id, event_type, description, timestamp. -/
structure Event where
  id : Nat
  event_type : String
  description : String
  timestamp : Rat
deriving DecidableEq

/-- Aggregate statistics recomputed from the stored log on every accepted
event, exactly the four counters of log_event. -/
structure Statistics where
  total_events : Nat
  door_open_events : Nat
  door_close_events : Nat
  alarm_events : Nat
deriving DecidableEq

/-- State visible to the event pipeline: the dedup variables plus the
append-only event log. -/
structure PipelineState where
  dedup : DedupVars
  eventLog : List Event
deriving DecidableEq

/-- Result of a submission: accepted (with the created event and the
recomputed statistics that are broadcast) or rejected as a duplicate. -/
inductive LogResult where
  | accepted (e : Event) (stats : Statistics)
  | deduplicated
deriving DecidableEq

/-- Python dict lookup for the last_event_timestamps dictionary. -/
def dictGet (d : List (String × Rat)) (k : String) : Option Rat :=
  (d.find? (fun p => p.1 == k)).map (fun p => p.2)

/-- Python dict assignment for the last_event_timestamps dictionary:
overwrite the binding in place if the key is present (keys are unique in a
Python dict), append it at the end otherwise (insertion order). -/
def dictSet : List (String × Rat) → String → Rat → List (String × Rat)
  | [], k, v => [(k, v)]
  | a :: rest, k, v => if a.1 == k then (k, v) :: rest else a :: dictSet rest k v

/-- Dedup key: the Python source builds the f-string event_type_description. -/
def event_key (event_type description : String) : String :=
  event_type ++ "_" ++ description

/-- Time-based duplicate check of log_event: true when the key was
submitted less than 2 seconds ago (strict comparison, as in the source). -/
def timeDupCheck (dv : DedupVars) (key : String) (current_time : Rat) : Bool :=
  match dictGet dv.last_event_timestamps key with
  | some prev => decide (current_time - prev < 2)
  | none => false

/-- State-based suppression check of log_event: a door_open while the
door is already recorded open, a door_close while already recorded
closed, or an alarm_triggered while the alarm dedup flag is set. -/
def stateSuppressed (dv : DedupVars) (event_type : String) : Bool :=
  if event_type == "door_open" then dv.last_logged_door_state == some true
  else if event_type == "door_close" then dv.last_logged_door_state == some false
  else if event_type == "alarm_triggered" then dv.last_logged_alarm_state
  else false

/-- Dedup flag updates performed by log_event on acceptance, per event
type (other event types leave the flags untouched). -/
def applyFlags (dv : DedupVars) (event_type : String) : DedupVars :=
  if event_type == "door_open" then { dv with last_logged_door_state := some true }
  else if event_type == "door_close" then { dv with last_logged_door_state := some false }
  else if event_type == "alarm_triggered" then { dv with last_logged_alarm_state := true }
  else dv

/-- The body of the with event_lock block of log_event
(app_with_html_errors.py lines 198-232), run atomically under the lock:
time-based duplicate prevention, then state-based suppression (each
rejection returns early with nothing modified), then the dedup flag
update and the timestamp update for the key.  Returns the updated
variables and whether the submission was accepted. -/
def dedupStep (dv : DedupVars) (event_type description : String)
    (current_time : Rat) : DedupVars × Bool :=
  if timeDupCheck dv (event_key event_type description) current_time then (dv, false)
  else if stateSuppressed dv event_type then (dv, false)
  else
    let dv1 := applyFlags dv event_type
    let ts := dictSet dv1.last_event_timestamps (event_key event_type description) current_time
    ({ dv1 with last_event_timestamps := ts }, true)

/-- Statistics recomputation from the full stored log (log_event lines
242-246): total count plus the three per-type counters. -/
def computeStatistics (log : List Event) : Statistics :=
  { total_events := log.length
  , door_open_events := (log.filter (fun e => e.event_type == "door_open")).length
  , door_close_events := (log.filter (fun e => e.event_type == "door_close")).length
  , alarm_events := (log.filter (fun e => e.event_type == "alarm_triggered")).length }

/-- Persistence and statistics phase of log_event (after the lock is
released): create the event row with the next id, append it to the log and
recompute the statistics that form the broadcast payload. -/
def persistEvent (s : PipelineState) (event_type description : String)
    (current_time : Rat) : PipelineState × Event × Statistics :=
  let e : Event :=
    { id := s.eventLog.length + 1
    , event_type := event_type
    , description := description
    , timestamp := current_time }
  let log := s.eventLog ++ [e]
  ({ s with eventLog := log }, e, computeStatistics log)

/-- Full sequential behaviour of log_event: dedup phase, then on
acceptance persistence, statistics recomputation and broadcast of the
payload; on rejection an early return with no side effects. -/
def log_event (s : PipelineState) (event_type description : String)
    (current_time : Rat) : PipelineState × LogResult :=
  match dedupStep s.dedup event_type description current_time with
  | (dv1, true) =>
      let s1 := { s with dedup := dv1 }
      match persistEvent s1 event_type description current_time with
      | (s2, e, stats) => (s2, LogResult.accepted e stats)
  | (_, false) => (s, LogResult.deduplicated)

/-- A submission request: event type, description, submission time. -/
structure Submission where
  event_type : String
  description : String
  time : Rat
deriving DecidableEq

/-- Run a sequence of submissions through the pipeline in order. -/
def runSubmissions (s : PipelineState) : List Submission → PipelineState
  | [] => s
  | sub :: rest =>
      runSubmissions (log_event s sub.event_type sub.description sub.time).1 rest

/-- Initial dedup state of the process (module-level initializers). -/
def initDedup : DedupVars :=
  { last_logged_door_state := none
  , last_logged_alarm_state := false
  , last_event_timestamps := [] }

/-- Initial pipeline state: fresh dedup variables, empty log. -/
def initPipeline : PipelineState :=
  { dedup := initDedup, eventLog := [] }

/-- Global door/alarm state of the process together with the pipeline
state: door_open, alarm_active, timer_active and the dedup/log variables. -/
structure SysState where
  door_open : Bool
  alarm_active : Bool
  timer_active : Bool
  pipeline : PipelineState
deriving DecidableEq

/-- Initial process state: door closed, no alarm, no timer, fresh pipeline. -/
def initSys : SysState :=
  { door_open := false, alarm_active := false, timer_active := false
  , pipeline := initPipeline }

/-- Door just opened branch of monitor_door (false to true edge): set
door_open, clear alarm_active, arm timer_active, log a door_open event
(the timer task is then started with the snapshotted duration). -/
def doorOpenEdge (s : SysState) (now : Rat) : SysState :=
  let s1 := { s with door_open := true, alarm_active := false, timer_active := true }
  { s1 with pipeline := (log_event s1.pipeline "door_open" "Door opened" now).1 }

/-- Door just closed branch of monitor_door (true to false edge,
app_with_html_errors.py lines 140-152): clear all three flags, reset the
alarm dedup flag, log a door_close event. -/
def doorCloseEdge (s : SysState) (now : Rat) : SysState :=
  let s1 := { s with door_open := false, alarm_active := false, timer_active := false }
  let s2 := { s1 with pipeline :=
    { s1.pipeline with dedup := { s1.pipeline.dedup with last_logged_alarm_state := false } } }
  { s2 with pipeline := (log_event s2.pipeline "door_close" "Door closed" now).1 }

/-- One iteration of the monitor_door sampling loop on a successfully read
sensor value: dispatch on the two edges, otherwise no action. -/
def monitorSample (s : SysState) (sensor : Bool) (now : Rat) : SysState :=
  if sensor && !s.door_open then doorOpenEdge s now
  else if !sensor && s.door_open then doorCloseEdge s now
  else s

/-- Final decision of alarm_timer after its blink loop has exited: if
timer_active and door_open still hold, a genuine expiry (clear
timer_active, set alarm_active, log alarm_triggered, email); otherwise
clear both flags without logging or emailing. -/
def timerFinalStep (s : SysState) (duration : Nat) (now : Rat) : SysState :=
  if s.timer_active && s.door_open then
    let s1 := { s with timer_active := false, alarm_active := true }
    { s1 with pipeline := (log_event s1.pipeline "alarm_triggered"
        ("Alarm triggered after " ++ toString duration ++ " seconds") now).1 }
  else
    { s with timer_active := false, alarm_active := false }

/-- An atomic action of the door/alarm state machine: one monitor sample,
or the final expiry-or-abort decision of a timer task. -/
inductive SysAction where
  | sample (sensor : Bool) (now : Rat)
  | timerFinal (duration : Nat) (now : Rat)
deriving DecidableEq

/-- Apply one action to the system state. -/
def sysStep (s : SysState) : SysAction → SysState
  | SysAction.sample sensor now => monitorSample s sensor now
  | SysAction.timerFinal duration now => timerFinalStep s duration now

/-- Run a sequence of actions from a state. -/
def runSys (s : SysState) : List SysAction → SysState
  | [] => s
  | a :: rest => runSys (sysStep s a) rest

/-- Shared-state observation made by the alarm_timer task at one of its
read points: the current values of timer_active and door_open. -/
structure TimerObs where
  timer_active : Bool
  door_open : Bool
deriving DecidableEq

/-- The blink loop of alarm_timer, modelled against a stream of
shared-state observations obs (one per read point, since the monitor
thread may change the flags between any two reads).  Each full iteration
takes one second (two half-second sleeps), so the while condition admits
at most duration iterations; fuel is the number of remaining iterations.
Returns whether the loop exited early (while-condition timer check false,
or one of the two break checks fired) and the index of the observation
that the final re-check will read. -/
def blinkLoop (obs : Nat → TimerObs) : Nat → Nat → Bool × Nat
  | 0, n => (false, n)
  | fuel + 1, n =>
    if (obs n).timer_active = false then (true, n + 1)
    else if ((obs (n + 1)).timer_active && (obs (n + 1)).door_open) = false then (true, n + 2)
    else if ((obs (n + 2)).timer_active && (obs (n + 2)).door_open) = false then (true, n + 3)
    else blinkLoop obs fuel (n + 3)

/-- Outcome of one alarm_timer run: the flag values it writes, whether it
submitted an alarm_triggered event, and whether it invoked the email
dispatcher. -/
structure TimerOutcome where
  timer_active : Bool
  alarm_active : Bool
  emitted : Bool
  emailed : Bool
deriving DecidableEq

/-- The alarm_timer task (app.py lines 114-150): run the blink loop, then
re-check timer_active and door_open; on a genuine expiry clear
timer_active, set alarm_active, submit alarm_triggered and email; on an
abort clear both flags and do neither. -/
def alarm_timer (obs : Nat → TimerObs) (duration : Nat) : TimerOutcome :=
  let r := blinkLoop obs duration 0
  let fin := obs r.2
  if fin.timer_active && fin.door_open then
    { timer_active := false, alarm_active := true, emitted := true, emailed := true }
  else
    { timer_active := false, alarm_active := false, emitted := false, emailed := false }

/-- One iteration of the monitor_door sampling loop with a fallible
sensor read.  The source body has no exception handler, so a failing read
propagates out of the iteration as an error instead of being treated as
no edge. -/
def monitorIter (s : SysState) (read : Except Unit Bool) (now : Rat) :
    Except Unit SysState :=
  match read with
  | Except.error e => Except.error e
  | Except.ok sensor => Except.ok (monitorSample s sensor now)

/-- The monitor_door sampling loop over a finite prefix of its (infinite)
schedule of reads: while every read succeeds it processes each sample and
continues with the next iteration; the first failing read makes the whole
loop return an error, i.e. the thread dies. -/
def monitorRun (s : SysState) : List (Except Unit Bool × Rat) → Except Unit SysState
  | [] => Except.ok s
  | (r, now) :: rest =>
    match monitorIter s r now with
    | Except.error e => Except.error e
    | Except.ok s1 => monitorRun s1 rest

/-- Notification configuration row (EmailConfig of models.py); the empty
string models a falsy (missing) field. -/
structure EmailConfig where
  is_configured : Bool
  sender_email : String
  app_password : String
  recipient_emails : String
deriving DecidableEq

/-- Outcome of the SMTP transport interaction: success, or one of the
three exception classes that the source handles. -/
inductive SmtpOutcome where
  | ok
  | authError
  | smtpError
  | otherError
deriving DecidableEq

/-- Result of send_alarm_email: one of the silent no-op returns for
absent or incomplete configuration, a successful send with the parsed
recipient list, or a caught-and-logged transport error. -/
inductive EmailResult where
  | skippedNoConfig
  | skippedNotConfigured
  | skippedIncomplete
  | sent (recipients : List String)
  | loggedAuthError
  | loggedSmtpError
  | loggedOtherError
deriving DecidableEq

/-- Body of the try block of send_alarm_email: configuration guards, then
the SMTP interaction, whose failure is raised as an error. -/
def sendEmailBody (cfg : Option EmailConfig) (outcome : SmtpOutcome) :
    Except SmtpOutcome EmailResult :=
  match cfg with
  | none => Except.ok EmailResult.skippedNoConfig
  | some c =>
    if c.is_configured = false then Except.ok EmailResult.skippedNotConfigured
    else if c.sender_email = "" ∨ c.app_password = "" ∨ c.recipient_emails = "" then
      Except.ok EmailResult.skippedIncomplete
    else
      match outcome with
      | SmtpOutcome.ok =>
          Except.ok (EmailResult.sent ((c.recipient_emails.splitOn ",").map String.trim))
      | e => Except.error e

/-- send_alarm_email (app.py lines 192-264): the whole body runs inside a
try with handlers for SMTPAuthenticationError, SMTPException and
Exception, so every transport failure is converted into a logged result
and the function always returns normally.  The event log is passed
through untouched: the function never modifies the already-recorded
alarm event. -/
def send_alarm_email (cfg : Option EmailConfig) (outcome : SmtpOutcome)
    (log : List Event) : EmailResult × List Event :=
  match sendEmailBody cfg outcome with
  | Except.ok r => (r, log)
  | Except.error SmtpOutcome.authError => (EmailResult.loggedAuthError, log)
  | Except.error SmtpOutcome.smtpError => (EmailResult.loggedSmtpError, log)
  | Except.error _ => (EmailResult.loggedOtherError, log)

/-- Complete configuration predicate: marked configured and all three
fields non-empty (the condition under which the source proceeds to send). -/
def configComplete (c : EmailConfig) : Bool :=
  c.is_configured && !(c.sender_email == "") && !(c.app_password == "")
    && !(c.recipient_emails == "")

/-- One in-flight log_event call in the concurrency model: its arguments,
its program counter (0 = before the locked dedup section, 1 = before
persistence, 2 = before broadcast, 3 = done) and whether its dedup phase
accepted the submission. -/
structure Thread where
  event_type : String
  description : String
  time : Rat
  pc : Nat
  accepted : Bool
deriving DecidableEq

/-- A fresh thread about to submit the given event. -/
def mkThread (event_type description : String) (time : Rat) : Thread :=
  { event_type := event_type, description := description, time := time
  , pc := 0, accepted := false }

/-- State of the two-thread concurrency model: the shared pipeline state,
the two in-flight submissions, the trace of executed steps (thread id and
the pc it executed) and the list of broadcasts performed. -/
structure CSys where
  ps : PipelineState
  thA : Thread
  thB : Thread
  trace : List (Bool × Nat)
  broadcasts : List Statistics
deriving DecidableEq

/-- Execute one step of a thread against the shared state.  Step 0 is the
whole with event_lock block of log_event, which is atomic because the
lock serializes it against the other thread's step 0; steps 1 (persist
plus statistics) and 2 (broadcast) run outside the lock, as in the
source, and hence are separately interleavable. -/
def threadStep (ps : PipelineState) (broadcasts : List Statistics) (th : Thread) :
    PipelineState × List Statistics × Thread :=
  match th.pc with
  | 0 =>
      match dedupStep ps.dedup th.event_type th.description th.time with
      | (dv1, true) =>
          ({ ps with dedup := dv1 }, broadcasts, { th with pc := 1, accepted := true })
      | (_, false) =>
          (ps, broadcasts, { th with pc := 3, accepted := false })
  | 1 =>
      ((persistEvent ps th.event_type th.description th.time).1, broadcasts,
        { th with pc := 2 })
  | 2 =>
      (ps, broadcasts ++ [computeStatistics ps.eventLog], { th with pc := 3 })
  | _ => (ps, broadcasts, th)

/-- Scheduler step: run one step of thread A (false) or thread B (true),
recording it in the trace when the thread is not already done. -/
def schedStep (c : CSys) (who : Bool) : CSys :=
  if who = false then
    let r := threadStep c.ps c.broadcasts c.thA
    let tr := if c.thA.pc < 3 then c.trace ++ [(false, c.thA.pc)] else c.trace
    { c with ps := r.1, broadcasts := r.2.1, thA := r.2.2, trace := tr }
  else
    let r := threadStep c.ps c.broadcasts c.thB
    let tr := if c.thB.pc < 3 then c.trace ++ [(true, c.thB.pc)] else c.trace
    { c with ps := r.1, broadcasts := r.2.1, thB := r.2.2, trace := tr }

/-- Run a schedule (a list of thread choices) from a concurrency state. -/
def runSched (c : CSys) : List Bool → CSys
  | [] => c
  | who :: rest => runSched (schedStep c who) rest

/-- Initial concurrency state for two submissions over a pipeline state. -/
def initCSys (ps : PipelineState) (a b : Thread) : CSys :=
  { ps := ps, thA := a, thB := b, trace := [], broadcasts := [] }

/-- Collapse adjacent equal elements of a list. -/
def adjacentDedup : List Bool → List Bool
  | [] => []
  | [a] => [a]
  | a :: b :: rest =>
      if a == b then adjacentDedup (b :: rest) else a :: adjacentDedup (b :: rest)

/-- A trace is serialized when the steps of each thread form one
contiguous block, i.e. the thread ids change at most once. -/
def serializedTrace (tr : List (Bool × Nat)) : Bool :=
  (adjacentDedup (tr.map Prod.fst)).length ≤ 2

/-- Number of persisted door_open events in a log. -/
def doorOpenCount (log : List Event) : Nat :=
  (log.filter (fun e => e.event_type == "door_open")).length

/-- Whether an event is of one of the three types that the recomputed
statistics count individually. -/
def isCounted (e : Event) : Bool :=
  e.event_type == "door_open" || e.event_type == "door_close"
    || e.event_type == "alarm_triggered"

/-- Run the sampling loop over a list of successfully read samples. -/
def runSamples (s : SysState) : List (Bool × Rat) → SysState
  | [] => s
  | (b, now) :: rest => runSamples (monitorSample s b now) rest

/-- The DoorState invariant of the spec: alarm_active and timer_active
are never both true, and alarm_active implies the door is open. -/
def sysInv (s : SysState) : Prop :=
  ¬(s.alarm_active = true ∧ s.timer_active = true)
    ∧ (s.alarm_active = true → s.door_open = true)

/-- Number of events a thread has persisted so far: one once its
persistence step has run (pc past 1) and it was accepted, zero otherwise. -/
def persistedCount (th : Thread) : Nat :=
  if 2 ≤ th.pc ∧ th.accepted = true then 1 else 0

/-- Inductive invariant for one stepping thread X and one passive thread
Y submitting the same dedup key: the two locked dedup phases are
serialized, so at most one of them is accepted, the accepted thread has
stamped its time for the shared key, and the log has grown by exactly the
number of accepted threads whose persistence step has run. -/
def pairInv (n : Nat) (et d : String) (tX tY : Rat) (ps : PipelineState)
    (thX thY : Thread) : Prop :=
  thX.event_type = et ∧ thX.description = d ∧ thX.time = tX
  ∧ thY.event_type = et ∧ thY.description = d ∧ thY.time = tY
  ∧ ¬(thX.accepted = true ∧ thY.accepted = true)
  ∧ (thX.pc = 0 → thX.accepted = false)
  ∧ (thY.pc = 0 → thY.accepted = false)
  ∧ (thX.pc = 1 ∨ thX.pc = 2 → thX.accepted = true)
  ∧ (thY.pc = 1 ∨ thY.pc = 2 → thY.accepted = true)
  ∧ (thX.accepted = true →
      dictGet ps.dedup.last_event_timestamps (event_key et d) = some tX)
  ∧ (thY.accepted = true →
      dictGet ps.dedup.last_event_timestamps (event_key et d) = some tY)
  ∧ ps.eventLog.length = n + persistedCount thX + persistedCount thY

/-- The invariant of the two-thread submission model, instantiated to
the concurrency state. -/
def atMostOneInv (ps0 : PipelineState) (et d : String) (tA tB : Rat) (c : CSys) : Prop :=
  pairInv ps0.eventLog.length et d tA tB c.ps c.thA c.thB

/-- Observation stream in which the monitor never changes the flags:
timer armed and door open at every read point. -/
def obsAllOn : Nat → TimerObs :=
  fun _ => { timer_active := true, door_open := true }

/-- Observation stream in which the door is already closed at the first
break check and stays closed. -/
def obsDoorShut : Nat → TimerObs :=
  fun _ => { timer_active := true, door_open := false }

/-- A state in the middle of an open episode with the alarm already
logged: door open, timer armed, dedup flags set. -/
def cexOpenSys : SysState :=
  { door_open := true, alarm_active := false, timer_active := true
  , pipeline :=
    { dedup := { last_logged_door_state := some true, last_logged_alarm_state := true
               , last_event_timestamps := [] }
    , eventLog := [] } }

/-- Two administrative submissions with distinct dedup keys, both
arriving at time 0. -/
def cexThreadA : Thread := mkThread "setting_changed" "a" 0

/-- Second submission of the interleaving counterexample. -/
def cexThreadB : Thread := mkThread "setting_changed" "b" 0

/-- A schedule that interleaves the two submissions: A and B both pass
their dedup phase before either persists. -/
def cexSched : List Bool := [false, true, true, false, false, true]

/-- The interleaved run of the two submissions. -/
def cexRun : CSys := runSched (initCSys initPipeline cexThreadA cexThreadB) cexSched

/-- A fully configured notification row. -/
def witnessCfg : EmailConfig :=
  { is_configured := true, sender_email := "s@x.com", app_password := "pw"
  , recipient_emails := "a@x.com,b@x.com" }

end DoorAlarm

namespace DoorAlarm

theorem dictGet_dictSet_self (d : List (String × Rat)) (k : String) (v : Rat) :
    dictGet (dictSet d k v) k = some v := by
  induction d with
  | nil => simp [dictGet, dictSet]
  | cons a rest ih =>
    by_cases h : a.1 = k
    · simp [dictGet, dictSet, List.find?, h]
    · have hne : (a.1 == k) = false := by simp [h]
      simpa [dictGet, dictSet, List.find?, hne] using ih

theorem applyFlags_timestamps (dv : DedupVars) (et : String) :
    (applyFlags dv et).last_event_timestamps = dv.last_event_timestamps := by
  unfold applyFlags
  split
  · rfl
  · split
    · rfl
    · split <;> rfl

theorem dedupStep_reject_cases (dv : DedupVars) (et d : String) (t : Rat)
    (h : timeDupCheck dv (event_key et d) t = true ∨ stateSuppressed dv et = true) :
    dedupStep dv et d t = (dv, false) := by
  unfold dedupStep
  rcases h with h | h
  · simp [h]
  · simp [h]

theorem dedupStep_accept_eq (dv : DedupVars) (et d : String) (t : Rat)
    (h1 : timeDupCheck dv (event_key et d) t = false)
    (h2 : stateSuppressed dv et = false) :
    dedupStep dv et d t = ({ applyFlags dv et with
      last_event_timestamps := dictSet dv.last_event_timestamps (event_key et d) t }, true) := by
  unfold dedupStep
  rw [h1, h2]
  simp [applyFlags_timestamps]

theorem dedupStep_accept_timestamp (dv : DedupVars) (et d : String) (t : Rat)
    (dv2 : DedupVars) (h : dedupStep dv et d t = (dv2, true)) :
    dictGet dv2.last_event_timestamps (event_key et d) = some t := by
  unfold dedupStep at h
  by_cases h1 : timeDupCheck dv (event_key et d) t
  · rw [if_pos h1] at h
    exact absurd (congrArg Prod.snd h) (by simp)
  · rw [if_neg h1] at h
    by_cases h2 : stateSuppressed dv et
    · rw [if_pos h2] at h
      exact absurd (congrArg Prod.snd h) (by simp)
    · rw [if_neg h2] at h
      have h3 := congrArg Prod.fst h
      simp only at h3
      rw [← h3]
      exact dictGet_dictSet_self _ _ _

theorem dedupStep_time_reject (dv : DedupVars) (et d : String) (t2 t : Rat)
    (hts : dictGet dv.last_event_timestamps (event_key et d) = some t)
    (hlt : t2 - t < 2) :
    dedupStep dv et d t2 = (dv, false) := by
  apply dedupStep_reject_cases
  left
  unfold timeDupCheck
  rw [hts]
  simpa using hlt

theorem log_event_accept_anatomy (s : PipelineState) (et d : String) (t : Rat)
    (hacc : (log_event s et d t).2 ≠ LogResult.deduplicated) :
    dedupStep s.dedup et d t = ((log_event s et d t).1.dedup, true)
    ∧ (log_event s et d t).1.eventLog = s.eventLog ++
        [{ id := s.eventLog.length + 1, event_type := et, description := d, timestamp := t }] := by
  rcases hd : dedupStep s.dedup et d t with ⟨dv1, acc⟩
  cases acc with
  | false => simp [log_event, hd] at hacc
  | true => simp [log_event, hd, persistEvent]

theorem log_event_reject_frame (s : PipelineState) (et d : String) (t : Rat)
    (h : (log_event s et d t).2 = LogResult.deduplicated) :
    (log_event s et d t).1 = s := by
  rcases hd : dedupStep s.dedup et d t with ⟨dv1, acc⟩
  cases acc with
  | false => simp [log_event, hd]
  | true => simp [log_event, hd, persistEvent] at h

theorem log_event_of_dedup_reject (s : PipelineState) (et d : String) (t : Rat)
    (h : dedupStep s.dedup et d t = (s.dedup, false)) :
    log_event s et d t = (s, LogResult.deduplicated) := by
  simp [log_event, h]

theorem log_event_accept_eq (s : PipelineState) (et d : String) (t : Rat)
    (h1 : timeDupCheck s.dedup (event_key et d) t = false)
    (h2 : stateSuppressed s.dedup et = false) :
    log_event s et d t =
      ({ dedup := { applyFlags s.dedup et with
            last_event_timestamps := dictSet s.dedup.last_event_timestamps (event_key et d) t }
       , eventLog := s.eventLog ++
           [{ id := s.eventLog.length + 1, event_type := et, description := d, timestamp := t }] },
       LogResult.accepted
         { id := s.eventLog.length + 1, event_type := et, description := d, timestamp := t }
         (computeStatistics (s.eventLog ++
           [{ id := s.eventLog.length + 1, event_type := et, description := d, timestamp := t }]))) := by
  simp [log_event, dedupStep_accept_eq s.dedup et d t h1 h2, persistEvent]

theorem stateSuppressed_other (dv : DedupVars) (et : String)
    (h1 : et ≠ "door_open") (h2 : et ≠ "door_close") (h3 : et ≠ "alarm_triggered") :
    stateSuppressed dv et = false := by
  simp [stateSuppressed, h1, h2, h3]

theorem applyFlags_other (dv : DedupVars) (et : String)
    (h1 : et ≠ "door_open") (h2 : et ≠ "door_close") (h3 : et ≠ "alarm_triggered") :
    applyFlags dv et = dv := by
  simp [applyFlags, h1, h2, h3]

/-- C2: for every pair of submissions with identical event type and
description where the second arrives less than 2 seconds after the first
was accepted, the second is rejected as a duplicate with no side effects
at all (the pipeline state, hence log, statistics and dedup state, is
returned unchanged and nothing is broadcast), so exactly one event is
persisted for the pair. -/
theorem log_event_time_window_dedup (s : PipelineState) (et d : String) (t t2 : Rat)
    (hacc : (log_event s et d t).2 ≠ LogResult.deduplicated)
    (hlt : t2 - t < 2) :
    log_event (log_event s et d t).1 et d t2
      = ((log_event s et d t).1, LogResult.deduplicated)
    ∧ (log_event s et d t).1.eventLog.length = s.eventLog.length + 1 := by
  obtain ⟨hded, hlog⟩ := log_event_accept_anatomy s et d t hacc
  have hts : dictGet (log_event s et d t).1.dedup.last_event_timestamps (event_key et d)
      = some t := dedupStep_accept_timestamp _ _ _ _ _ hded
  constructor
  · exact log_event_of_dedup_reject _ _ _ _ (dedupStep_time_reject _ _ _ _ _ hts hlt)
  · rw [hlog]; simp

theorem log_event_cases (s : PipelineState) (et d : String) (t : Rat) :
    log_event s et d t = (s, LogResult.deduplicated)
    ∨ log_event s et d t =
      ({ dedup := { applyFlags s.dedup et with
            last_event_timestamps := dictSet s.dedup.last_event_timestamps (event_key et d) t }
       , eventLog := s.eventLog ++
           [{ id := s.eventLog.length + 1, event_type := et, description := d, timestamp := t }] },
       LogResult.accepted
         { id := s.eventLog.length + 1, event_type := et, description := d, timestamp := t }
         (computeStatistics (s.eventLog ++
           [{ id := s.eventLog.length + 1, event_type := et, description := d, timestamp := t }]))) := by
  by_cases h1 : timeDupCheck s.dedup (event_key et d) t = true
  · exact Or.inl (log_event_of_dedup_reject _ _ _ _ (dedupStep_reject_cases _ _ _ _ (Or.inl h1)))
  · by_cases h2 : stateSuppressed s.dedup et = true
    · exact Or.inl (log_event_of_dedup_reject _ _ _ _ (dedupStep_reject_cases _ _ _ _ (Or.inr h2)))
    · exact Or.inr (log_event_accept_eq s et d t (by simpa using h1) (by simpa using h2))

theorem applyFlags_door_open (dv : DedupVars) :
    (applyFlags dv "door_open").last_logged_door_state = some true := by
  simp [applyFlags]

theorem applyFlags_door_close (dv : DedupVars) :
    (applyFlags dv "door_close").last_logged_door_state = some false := by
  simp [applyFlags]

theorem applyFlags_door_of_ne (dv : DedupVars) (et : String)
    (h1 : et ≠ "door_open") (h2 : et ≠ "door_close") :
    (applyFlags dv et).last_logged_door_state = dv.last_logged_door_state := by
  simp only [applyFlags]
  split
  · simp_all
  · split
    · simp_all
    · split <;> rfl

theorem applyFlags_alarm_of_ne (dv : DedupVars) (et : String)
    (h : et ≠ "alarm_triggered") :
    (applyFlags dv et).last_logged_alarm_state = dv.last_logged_alarm_state := by
  simp only [applyFlags]
  split
  · rfl
  · split
    · rfl
    · split
      · simp_all
      · rfl

theorem runSubmissions_append (s : PipelineState) (xs ys : List Submission) :
    runSubmissions s (xs ++ ys) = runSubmissions (runSubmissions s xs) ys := by
  induction xs generalizing s with
  | nil => rfl
  | cons a rest ih => simp [runSubmissions, ih]

theorem doorFlag_true_preserved (s : PipelineState) (et d : String) (t : Rat)
    (hopen : s.dedup.last_logged_door_state = some true) (hne : et ≠ "door_close") :
    (log_event s et d t).1.dedup.last_logged_door_state = some true
    ∧ doorOpenCount (log_event s et d t).1.eventLog = doorOpenCount s.eventLog := by
  by_cases hoe : et = "door_open"
  · subst hoe
    have hsup : stateSuppressed s.dedup "door_open" = true := by
      simp [stateSuppressed, hopen]
    rw [log_event_of_dedup_reject _ _ _ _ (dedupStep_reject_cases _ _ _ _ (Or.inr hsup))]
    exact ⟨hopen, rfl⟩
  · rcases log_event_cases s et d t with h | h
    · rw [h]; exact ⟨hopen, rfl⟩
    · rw [h]
      constructor
      · show (applyFlags s.dedup et).last_logged_door_state = some true
        rw [applyFlags_door_of_ne s.dedup et hoe hne]; exact hopen
      · have hne2 : (et == "door_open") = false := by simp [hoe]
        simp [doorOpenCount, List.filter_append, hne2]

theorem doorFlag_run_preserved (subs : List Submission) (s : PipelineState)
    (hopen : s.dedup.last_logged_door_state = some true)
    (hnc : ∀ x ∈ subs, x.event_type ≠ "door_close") :
    (runSubmissions s subs).dedup.last_logged_door_state = some true
    ∧ doorOpenCount (runSubmissions s subs).eventLog = doorOpenCount s.eventLog := by
  induction subs generalizing s with
  | nil => exact ⟨hopen, rfl⟩
  | cons a rest ih =>
    have ha : a.event_type ≠ "door_close" := hnc a (by simp)
    obtain ⟨h1, h2⟩ := doorFlag_true_preserved s a.event_type a.description a.time hopen ha
    have hrest : ∀ x ∈ rest, x.event_type ≠ "door_close" := fun x hx => hnc x (by simp [hx])
    obtain ⟨g1, g2⟩ := ih ((log_event s a.event_type a.description a.time).1) h1 hrest
    exact ⟨g1, by rw [runSubmissions]; rw [g2, h2]⟩

theorem log_event_door_open_accept (s : PipelineState) (d : String) (t : Rat)
    (hacc : (log_event s "door_open" d t).2 ≠ LogResult.deduplicated) :
    (log_event s "door_open" d t).1.dedup.last_logged_door_state = some true
    ∧ doorOpenCount (log_event s "door_open" d t).1.eventLog
      = doorOpenCount s.eventLog + 1 := by
  rcases log_event_cases s "door_open" d t with h | h
  · rw [h] at hacc; simp at hacc
  · rw [h]
    constructor
    · show (applyFlags s.dedup "door_open").last_logged_door_state = some true
      exact applyFlags_door_open s.dedup
    · simp [doorOpenCount, List.filter_append]

/-- C3: a door_open submission is rejected while the last logged door
state is already open, a door_close submission while already closed, an
alarm_triggered submission while the alarm dedup flag is set; the dedup
flags are updated only on acceptance; and two door_open submissions with
no intervening door_close persist exactly one door_open event. -/
theorem log_event_state_suppression :
    (∀ s d t, s.dedup.last_logged_door_state = some true →
        log_event s "door_open" d t = (s, LogResult.deduplicated))
    ∧ (∀ s d t, s.dedup.last_logged_door_state = some false →
        log_event s "door_close" d t = (s, LogResult.deduplicated))
    ∧ (∀ s d t, s.dedup.last_logged_alarm_state = true →
        log_event s "alarm_triggered" d t = (s, LogResult.deduplicated))
    ∧ (∀ s et d t, (log_event s et d t).2 = LogResult.deduplicated →
        (log_event s et d t).1.dedup = s.dedup)
    ∧ (∀ s d1 t1 mid d2 t2,
        (log_event s "door_open" d1 t1).2 ≠ LogResult.deduplicated →
        (∀ x ∈ mid, x.event_type ≠ "door_close") →
        doorOpenCount (runSubmissions s
          ({ event_type := "door_open", description := d1, time := t1 } ::
            (mid ++ [{ event_type := "door_open", description := d2, time := t2 }]))).eventLog
          = doorOpenCount s.eventLog + 1) := by
  refine ⟨?_, ?_, ?_, ?_, ?_⟩
  · intro s d t h
    exact log_event_of_dedup_reject _ _ _ _
      (dedupStep_reject_cases _ _ _ _ (Or.inr (by simp [stateSuppressed, h])))
  · intro s d t h
    exact log_event_of_dedup_reject _ _ _ _
      (dedupStep_reject_cases _ _ _ _ (Or.inr (by simp [stateSuppressed, h])))
  · intro s d t h
    exact log_event_of_dedup_reject _ _ _ _
      (dedupStep_reject_cases _ _ _ _ (Or.inr (by simp [stateSuppressed, h])))
  · intro s et d t h
    rw [log_event_reject_frame s et d t h]
  · intro s d1 t1 mid d2 t2 hacc hnc
    rw [runSubmissions, runSubmissions_append]
    obtain ⟨hflag, hcnt⟩ := log_event_door_open_accept s d1 t1 hacc
    obtain ⟨g1, g2⟩ := doorFlag_run_preserved mid _ hflag hnc
    have hrej : log_event (runSubmissions (log_event s "door_open" d1 t1).1 mid)
        "door_open" d2 t2
        = (runSubmissions (log_event s "door_open" d1 t1).1 mid, LogResult.deduplicated) :=
      log_event_of_dedup_reject _ _ _ _
        (dedupStep_reject_cases _ _ _ _ (Or.inr (by simp [stateSuppressed, g1])))
    rw [runSubmissions, hrej, runSubmissions]
    rw [g2, hcnt]

/-- Witness for C3: with the door already logged open, a second door_open
submission is rejected, and the two-submission run persists exactly one
door_open event. -/
theorem log_event_state_suppression_witness :
    log_event (log_event initPipeline "door_open" "Door opened" 0).1 "door_open" "second" 10
      = ((log_event initPipeline "door_open" "Door opened" 0).1, LogResult.deduplicated)
    ∧ doorOpenCount (runSubmissions initPipeline
        ({ event_type := "door_open", description := "Door opened", time := 0 } ::
          ([] ++ [{ event_type := "door_open", description := "again", time := 10 }]))).eventLog
      = doorOpenCount initPipeline.eventLog + 1 := by
  constructor
  · exact log_event_state_suppression.1 _ "second" 10 (by decide)
  · exact log_event_state_suppression.2.2.2.2 initPipeline "Door opened" 0 [] "again" 10
      (by decide) (by simp)

theorem filter_three_sum (log : List Event) :
    (log.filter (fun e => e.event_type == "door_open")).length
    + (log.filter (fun e => e.event_type == "door_close")).length
    + (log.filter (fun e => e.event_type == "alarm_triggered")).length
    = (log.filter isCounted).length := by
  induction log with
  | nil => rfl
  | cons e rest ih =>
    simp only [List.filter_cons]
    by_cases h1 : e.event_type = "door_open"
    · simp [isCounted, h1, ih]; omega
    · by_cases h2 : e.event_type = "door_close"
      · simp [isCounted, h1, h2, ih]; omega
      · by_cases h3 : e.event_type = "alarm_triggered"
        · simp [isCounted, h1, h2, h3, ih]; omega
        · simp [isCounted, h1, h2, h3, ih]

theorem log_event_accept_stats (s : PipelineState) (et d : String) (t : Rat)
    (e : Event) (st : Statistics)
    (h : (log_event s et d t).2 = LogResult.accepted e st) :
    st = computeStatistics (log_event s et d t).1.eventLog := by
  rcases log_event_cases s et d t with hc | hc
  · rw [hc] at h; simp at h
  · rw [hc] at h ⊢
    have h2 : LogResult.accepted
        { id := s.eventLog.length + 1, event_type := et, description := d, timestamp := t }
        (computeStatistics (s.eventLog ++
          [{ id := s.eventLog.length + 1, event_type := et, description := d, timestamp := t }]))
        = LogResult.accepted e st := h
    injection h2 with he hst
    rw [← hst]

/-- Counterexample for C5 as stated: a persisted settings_changed event
counts toward total_events but toward none of the per-type counters, so
the per-type counts sum to 0 while N = 1. -/
theorem statistics_sum_cex :
    (log_event initPipeline "settings_changed" "Admin updated system settings" 0).2
      = LogResult.accepted
          { id := 1, event_type := "settings_changed"
          , description := "Admin updated system settings", timestamp := 0 }
          { total_events := 1, door_open_events := 0, door_close_events := 0, alarm_events := 0 }
    ∧ (0 + 0 + 0 : Nat) ≠ 1 := by
  decide

/-- C5 amended: after every accepted event, total_events equals the
number N of all persisted events; the three per-type counters
(door_open, door_close, alarm_triggered) sum to the number of persisted
events of those three types, which is at most N and equals N only when
every persisted event is of one of those types. -/
theorem statistics_total_and_sum (s : PipelineState) (et d : String) (t : Rat)
    (e : Event) (st : Statistics)
    (h : (log_event s et d t).2 = LogResult.accepted e st) :
    st.total_events = (log_event s et d t).1.eventLog.length
    ∧ st.door_open_events + st.door_close_events + st.alarm_events
        = ((log_event s et d t).1.eventLog.filter isCounted).length
    ∧ st.door_open_events + st.door_close_events + st.alarm_events ≤ st.total_events := by
  have hst := log_event_accept_stats s et d t e st h
  subst hst
  refine ⟨rfl, filter_three_sum _, ?_⟩
  simp only [computeStatistics]
  rw [filter_three_sum]
  exact List.length_filter_le _ _

/-- Witness for C5 amended: the first accepted door_open event yields
total 1 and per-type sum 1. -/
theorem statistics_total_and_sum_witness :
    (1 : Nat) = (log_event initPipeline "door_open" "Door opened" 0).1.eventLog.length
    ∧ (1 + 0 + 0 : Nat)
        = ((log_event initPipeline "door_open" "Door opened" 0).1.eventLog.filter isCounted).length
    ∧ (1 + 0 + 0 : Nat) ≤ 1 :=
  statistics_total_and_sum initPipeline "door_open" "Door opened" 0
    { id := 1, event_type := "door_open", description := "Door opened", timestamp := 0 }
    { total_events := 1, door_open_events := 1, door_close_events := 0, alarm_events := 0 }
    (by decide)

theorem log_event_alarmFlag_preserved (s : PipelineState) (d : String) (t : Rat) :
    (log_event s "door_close" d t).1.dedup.last_logged_alarm_state
      = s.dedup.last_logged_alarm_state := by
  rcases log_event_cases s "door_close" d t with h | h
  · rw [h]
  · rw [h]
    show (applyFlags s.dedup "door_close").last_logged_alarm_state = _
    exact applyFlags_alarm_of_ne _ _ (by decide)

theorem log_event_door_close_flag (s : PipelineState) (d : String) (t : Rat) :
    (log_event s "door_close" d t).1.dedup.last_logged_door_state = some false
    ∨ (log_event s "door_close" d t).1.dedup.last_logged_door_state
        = s.dedup.last_logged_door_state := by
  rcases log_event_cases s "door_close" d t with h | h
  · right; rw [h]
  · left; rw [h]
    exact applyFlags_door_close s.dedup

/-- Counterexample for C6 as stated: on the door-close edge the
last-logged-door flag is not reset to unknown (None); from a state where
it is some true it ends up some false, because the accepted door_close
event records the door as closed. -/
theorem door_close_dedup_reset_cex :
    (doorCloseEdge cexOpenSys 10).pipeline.dedup.last_logged_door_state = some false
    ∧ (doorCloseEdge cexOpenSys 10).pipeline.dedup.last_logged_alarm_state = false
    ∧ some false ≠ (none : Option Bool) := by
  decide

/-- C6 amended: whenever the door closes, the close-edge handler clears
the alarm dedup flag; the last-logged-door flag is not reset to unknown —
it is set to false (closed) when the door_close event is accepted and
left unchanged otherwise. -/
theorem door_close_dedup_flags (s : SysState) (now : Rat) :
    (doorCloseEdge s now).pipeline.dedup.last_logged_alarm_state = false
    ∧ ((doorCloseEdge s now).pipeline.dedup.last_logged_door_state = some false
       ∨ (doorCloseEdge s now).pipeline.dedup.last_logged_door_state
           = s.pipeline.dedup.last_logged_door_state) := by
  constructor
  · show (log_event
        { s.pipeline with dedup := { s.pipeline.dedup with last_logged_alarm_state := false } }
        "door_close" "Door closed" now).1.dedup.last_logged_alarm_state = false
    rw [log_event_alarmFlag_preserved]
  · show (log_event
        { s.pipeline with dedup := { s.pipeline.dedup with last_logged_alarm_state := false } }
        "door_close" "Door closed" now).1.dedup.last_logged_door_state = some false
      ∨ (log_event
        { s.pipeline with dedup := { s.pipeline.dedup with last_logged_alarm_state := false } }
        "door_close" "Door closed" now).1.dedup.last_logged_door_state
        = s.pipeline.dedup.last_logged_door_state
    exact log_event_door_close_flag _ "Door closed" now

/-- C1: after the blink loop of alarm_timer exits, an alarm_triggered
event is submitted and the email dispatcher invoked if and only if
timer_active and door_open both still hold at the final re-check, in
which case timer_active is cleared and alarm_active set; if the loop
exited early and the abort condition still holds at the final re-check
(the door stayed closed, or the timer stayed deactivated, for that
episode), both flags are cleared and nothing is submitted or emailed. -/
theorem alarm_timer_final_recheck (obs : Nat → TimerObs) (duration : Nat) :
    (((alarm_timer obs duration).emitted = true ∧ (alarm_timer obs duration).emailed = true)
      ↔ ((obs (blinkLoop obs duration 0).2).timer_active = true
          ∧ (obs (blinkLoop obs duration 0).2).door_open = true))
    ∧ ((obs (blinkLoop obs duration 0).2).timer_active = true
        ∧ (obs (blinkLoop obs duration 0).2).door_open = true →
        (alarm_timer obs duration).timer_active = false
        ∧ (alarm_timer obs duration).alarm_active = true)
    ∧ ((blinkLoop obs duration 0).1 = true →
        ((obs (blinkLoop obs duration 0).2).timer_active = false
          ∨ (obs (blinkLoop obs duration 0).2).door_open = false) →
        (alarm_timer obs duration).timer_active = false
        ∧ (alarm_timer obs duration).alarm_active = false
        ∧ (alarm_timer obs duration).emitted = false
        ∧ (alarm_timer obs duration).emailed = false) := by
  have hat : alarm_timer obs duration =
      if (obs (blinkLoop obs duration 0).2).timer_active
          && (obs (blinkLoop obs duration 0).2).door_open then
        { timer_active := false, alarm_active := true, emitted := true, emailed := true }
      else
        { timer_active := false, alarm_active := false, emitted := false, emailed := false } :=
    rfl
  rw [hat]
  by_cases h : ((obs (blinkLoop obs duration 0).2).timer_active
      && (obs (blinkLoop obs duration 0).2).door_open) = true
  · rw [if_pos h]
    rw [Bool.and_eq_true] at h
    simp [h.1, h.2]
  · rw [if_neg h]
    rw [Bool.and_eq_true] at h
    simp only [not_and] at h
    constructor
    · simp only [iff_iff_implies_and_implies]
      constructor
      · intro hx; exact absurd hx.1 (by simp)
      · intro hx; exact absurd (h hx.1) (by simp [hx.2])
    · constructor
      · intro hx; exact absurd (h hx.1) (by simp [hx.2])
      · intro _ _; exact ⟨rfl, rfl, rfl, rfl⟩

/-- Witness for C1: with the flags held armed and open at every read the
timer triggers, submits and emails; with the door closed at the first
break check the loop aborts early and nothing is submitted or emailed. -/
theorem alarm_timer_final_recheck_witness :
    ((alarm_timer obsAllOn 2).timer_active = false
      ∧ (alarm_timer obsAllOn 2).alarm_active = true)
    ∧ ((alarm_timer obsDoorShut 2).timer_active = false
       ∧ (alarm_timer obsDoorShut 2).alarm_active = false
       ∧ (alarm_timer obsDoorShut 2).emitted = false
       ∧ (alarm_timer obsDoorShut 2).emailed = false) :=
  ⟨(alarm_timer_final_recheck obsAllOn 2).2.1 (by decide),
   (alarm_timer_final_recheck obsDoorShut 2).2.2 (by decide) (by decide)⟩

theorem sysInv_step (s : SysState) (a : SysAction) (h : sysInv s) : sysInv (sysStep s a) := by
  cases a with
  | sample sensor now =>
    show sysInv (monitorSample s sensor now)
    unfold monitorSample
    by_cases h1 : (sensor && !s.door_open) = true
    · rw [if_pos h1]
      exact ⟨fun hx => absurd hx.1 (by simp [doorOpenEdge]), fun hx => rfl⟩
    · rw [if_neg h1]
      by_cases h2 : (!sensor && s.door_open) = true
      · rw [if_pos h2]
        exact ⟨fun hx => absurd hx.1 (by simp [doorCloseEdge]),
               fun hx => absurd hx (by simp [doorCloseEdge])⟩
      · rw [if_neg h2]; exact h
  | timerFinal dur now =>
    show sysInv (timerFinalStep s dur now)
    unfold timerFinalStep
    by_cases h1 : (s.timer_active && s.door_open) = true
    · rw [if_pos h1]
      rw [Bool.and_eq_true] at h1
      exact ⟨fun hx => absurd hx.2 (by simp), fun _ => h1.2⟩
    · rw [if_neg h1]
      exact ⟨fun hx => absurd hx.1 (by simp), fun hx => absurd hx (by simp)⟩

theorem runSys_inv (acts : List SysAction) (s : SysState) (h : sysInv s) :
    sysInv (runSys s acts) := by
  induction acts generalizing s with
  | nil => exact h
  | cons a rest ih => exact ih _ (sysInv_step s a h)

/-- C7: in every state reachable by the edge handlers and the timer
final step, alarm_active and timer_active are never both true and
alarm_active implies the door is open; moreover the only transition that
sets alarm_active requires timer_active and door_open to hold at the
trigger decision. -/
theorem door_alarm_invariant (acts : List SysAction) :
    sysInv (runSys initSys acts)
    ∧ (∀ s dur now, (timerFinalStep s dur now).alarm_active = true →
        s.timer_active = true ∧ s.door_open = true) := by
  constructor
  · exact runSys_inv acts initSys ⟨fun hx => absurd hx.1 (by simp [initSys]),
      fun hx => absurd hx (by simp [initSys])⟩
  · intro s dur now hx
    unfold timerFinalStep at hx
    by_cases h1 : (s.timer_active && s.door_open) = true
    · rw [Bool.and_eq_true] at h1; exact ⟨h1.1, h1.2⟩
    · rw [if_neg h1] at hx; exact absurd hx (by simp)

/-- Witness for C7: the invariant holds after a concrete door-open
sample, and the concrete expiry that sets the alarm had the timer armed
and the door open. -/
theorem door_alarm_invariant_witness :
    (¬((runSys initSys [SysAction.sample true 0]).alarm_active = true
        ∧ (runSys initSys [SysAction.sample true 0]).timer_active = true))
    ∧ cexOpenSys.timer_active = true ∧ cexOpenSys.door_open = true :=
  ⟨(door_alarm_invariant [SysAction.sample true 0]).1.1,
   (door_alarm_invariant []).2 cexOpenSys 30 5 (by decide)⟩

/-- Counterexample for C8 as stated: a failing sensor read is not
contained — the sampling loop propagates the error and terminates
instead of treating the sample as no edge and processing the next one. -/
theorem monitor_read_failure_cex :
    monitorRun initSys [(Except.error (), 0), (Except.ok true, 1)] = Except.error ()
    ∧ Except.error () ≠ (Except.ok (monitorSample initSys true 1) : Except Unit SysState) := by
  exact ⟨rfl, by simp⟩

/-- C8 amended: while every sensor read succeeds the sampling loop
processes each sample and continues (it never exits on its own); but a
read failure propagates out of the iteration, terminating the loop, since
monitor_door has no exception handler. -/
theorem monitor_loop_containment :
    (∀ s samples, monitorRun s (samples.map (fun p : Bool × Rat => (Except.ok p.1, p.2)))
        = Except.ok (runSamples s samples))
    ∧ (∀ s now rest, monitorRun s ((Except.error (), now) :: rest)
        = (Except.error () : Except Unit SysState)) := by
  constructor
  · intro s samples
    induction samples generalizing s with
    | nil => rfl
    | cons a rest ih =>
      obtain ⟨b, now⟩ := a
      simp only [List.map_cons, monitorRun, monitorIter, runSamples]
      exact ih (monitorSample s b now)
  · intro s now rest
    rfl

/-- C9: for every configuration state and transport outcome the email
dispatcher returns normally with a defined result and never touches the
event log; absent, unconfigured or incomplete configuration is a silent
no-op, and every transport failure is caught and logged. -/
theorem send_alarm_email_guarded :
    (∀ outcome log, send_alarm_email none outcome log = (EmailResult.skippedNoConfig, log))
    ∧ (∀ c outcome log, c.is_configured = false →
        send_alarm_email (some c) outcome log = (EmailResult.skippedNotConfigured, log))
    ∧ (∀ c outcome log, c.is_configured = true →
        (c.sender_email = "" ∨ c.app_password = "" ∨ c.recipient_emails = "") →
        send_alarm_email (some c) outcome log = (EmailResult.skippedIncomplete, log))
    ∧ (∀ cfg outcome log, (send_alarm_email cfg outcome log).2 = log)
    ∧ (∀ c log, configComplete c = true →
        send_alarm_email (some c) SmtpOutcome.authError log = (EmailResult.loggedAuthError, log)
        ∧ send_alarm_email (some c) SmtpOutcome.smtpError log = (EmailResult.loggedSmtpError, log)
        ∧ send_alarm_email (some c) SmtpOutcome.otherError log
            = (EmailResult.loggedOtherError, log)
        ∧ send_alarm_email (some c) SmtpOutcome.ok log
            = (EmailResult.sent ((c.recipient_emails.splitOn ",").map String.trim), log)) := by
  refine ⟨?_, ?_, ?_, ?_, ?_⟩
  · intro outcome log; rfl
  · intro c outcome log h
    simp [send_alarm_email, sendEmailBody, h]
  · intro c outcome log h1 h2
    simp [send_alarm_email, sendEmailBody, h1, h2]
  · intro cfg outcome log
    rcases hsb : sendEmailBody cfg outcome with e | r
    · cases e <;> simp [send_alarm_email, hsb]
    · simp [send_alarm_email, hsb]
  · intro c log hc
    unfold configComplete at hc
    simp only [Bool.and_eq_true, Bool.not_eq_true', beq_eq_false_iff_ne] at hc
    obtain ⟨⟨⟨h1, h2⟩, h3⟩, h4⟩ := hc
    refine ⟨?_, ?_, ?_, ?_⟩ <;> simp [send_alarm_email, sendEmailBody, h1, h2, h3, h4]

/-- Witness for C9: a complete configuration with an authentication
failure yields the logged-auth-error result, and an absent configuration
is a silent no-op. -/
theorem send_alarm_email_guarded_witness :
    send_alarm_email (some witnessCfg) SmtpOutcome.authError []
      = (EmailResult.loggedAuthError, [])
    ∧ send_alarm_email none SmtpOutcome.ok [] = (EmailResult.skippedNoConfig, []) :=
  ⟨(send_alarm_email_guarded.2.2.2.2 witnessCfg [] (by decide)).1,
   send_alarm_email_guarded.1 SmtpOutcome.ok []⟩

/-- Counterexample for C10 as stated: identical door_open submissions at
times 0, 1.5 and 3 persist exactly one event, not two — the third passes
the 2-second window but is rejected by state-based suppression. -/
theorem reject_frame_cex :
    (runSubmissions initPipeline
      [{ event_type := "door_open", description := "Door opened", time := 0 },
       { event_type := "door_open", description := "Door opened", time := 3/2 },
       { event_type := "door_open", description := "Door opened", time := 3 }]).eventLog.length
      = 1
    ∧ (1 : Nat) ≠ 2 := by
  refine ⟨?_, by decide⟩
  have hts : dictGet (log_event initPipeline "door_open" "Door opened" 0).1.dedup.last_event_timestamps
      (event_key "door_open" "Door opened") = some 0 := rfl
  have h2 := log_event_of_dedup_reject (log_event initPipeline "door_open" "Door opened" 0).1
      "door_open" "Door opened" (3/2)
      (dedupStep_time_reject _ "door_open" "Door opened" (3/2) 0 hts (by norm_num))
  have hsup : stateSuppressed (log_event initPipeline "door_open" "Door opened" 0).1.dedup
      "door_open" = true := rfl
  have h3 := log_event_of_dedup_reject (log_event initPipeline "door_open" "Door opened" 0).1
      "door_open" "Door opened" 3
      (dedupStep_reject_cases _ "door_open" "Door opened" 3 (Or.inr hsup))
  simp only [runSubmissions, h2, h3]
  rfl

/-- C10 amended: every rejection leaves the entire pipeline state, dedup
variables included, unchanged; and a rejected duplicate does not refresh
the 2-second window, so for an event type not subject to state-based
suppression, identical submissions at t, t+1.5 and t+3 persist exactly
two events (the first and the third). -/
theorem reject_frame_and_window (s : PipelineState) (et d : String) (t : Rat)
    (hne1 : et ≠ "door_open") (hne2 : et ≠ "door_close") (hne3 : et ≠ "alarm_triggered")
    (hfresh : timeDupCheck s.dedup (event_key et d) t = false) :
    (∀ s2 et2 d2 t2, (log_event s2 et2 d2 t2).2 = LogResult.deduplicated →
        (log_event s2 et2 d2 t2).1 = s2)
    ∧ (runSubmissions s
        [{ event_type := et, description := d, time := t },
         { event_type := et, description := d, time := t + 3/2 },
         { event_type := et, description := d, time := t + 3 }]).eventLog.length
      = s.eventLog.length + 2 := by
  have hsup : stateSuppressed s.dedup et = false := stateSuppressed_other _ _ hne1 hne2 hne3
  have h1 := log_event_accept_eq s et d t hfresh hsup
  have hacc1 : (log_event s et d t).2 ≠ LogResult.deduplicated := by rw [h1]; simp
  obtain ⟨hded, hlog⟩ := log_event_accept_anatomy s et d t hacc1
  have hts1 := dedupStep_accept_timestamp _ _ _ _ _ hded
  have hrej2 : log_event (log_event s et d t).1 et d (t + 3/2)
      = ((log_event s et d t).1, LogResult.deduplicated) :=
    log_event_of_dedup_reject _ _ _ _
      (dedupStep_time_reject _ _ _ (t + 3/2) t hts1 (by linarith))
  have hfresh3 : timeDupCheck (log_event s et d t).1.dedup (event_key et d) (t + 3) = false := by
    unfold timeDupCheck
    rw [hts1]
    simp only [decide_eq_false_iff_not]
    intro h
    linarith
  have hsup3 : stateSuppressed (log_event s et d t).1.dedup et = false :=
    stateSuppressed_other _ _ hne1 hne2 hne3
  have hacc3 := log_event_accept_eq ((log_event s et d t).1) et d (t + 3) hfresh3 hsup3
  constructor
  · exact fun s2 et2 d2 t2 h => log_event_reject_frame s2 et2 d2 t2 h
  · simp only [runSubmissions]
    rw [hrej2]
    rw [hacc3]
    simp [hlog]

/-- Witness for C10 amended: setting_changed submissions at 0, 1.5 and 3
persist exactly two events. -/
theorem reject_frame_and_window_witness :
    (runSubmissions initPipeline
      [{ event_type := "setting_changed", description := "x", time := 0 },
       { event_type := "setting_changed", description := "x", time := 0 + 3/2 },
       { event_type := "setting_changed", description := "x", time := 0 + 3 }]).eventLog.length
      = initPipeline.eventLog.length + 2 :=
  (reject_frame_and_window initPipeline "setting_changed" "x" 0
    (by decide) (by decide) (by decide) (by decide)).2

/-- Witness for C2: the door_open event accepted at time 0 makes the
identical submission at time 1.5 a rejected duplicate. -/
theorem log_event_time_window_dedup_witness :
    log_event (log_event initPipeline "door_open" "Door opened" 0).1 "door_open" "Door opened" (3/2)
      = ((log_event initPipeline "door_open" "Door opened" 0).1, LogResult.deduplicated)
    ∧ (log_event initPipeline "door_open" "Door opened" 0).1.eventLog.length
      = initPipeline.eventLog.length + 1 :=
  log_event_time_window_dedup initPipeline "door_open" "Door opened" 0 (3/2)
    (by decide) (by norm_num)

theorem persistEvent_dedup (s : PipelineState) (et d : String) (t : Rat) :
    (persistEvent s et d t).1.dedup = s.dedup := rfl

theorem persistEvent_length (s : PipelineState) (et d : String) (t : Rat) :
    (persistEvent s et d t).1.eventLog.length = s.eventLog.length + 1 := by
  simp [persistEvent]

theorem pairInv_swap (n : Nat) (et d : String) (tX tY : Rat) (ps : PipelineState)
    (thX thY : Thread) (h : pairInv n et d tX tY ps thX thY) :
    pairInv n et d tY tX ps thY thX := by
  obtain ⟨h1, h2, h3, h4, h5, h6, h7, h8, h9, h10, h11, h12, h13, h14⟩ := h
  exact ⟨h4, h5, h6, h1, h2, h3, fun hx => h7 ⟨hx.2, hx.1⟩, h9, h8, h11, h10, h13, h12,
    by omega⟩

theorem pairInv_step (n : Nat) (et d : String) (tX tY : Rat) (ps : PipelineState)
    (bc : List Statistics) (thX thY : Thread) (hXY : tX - tY < 2)
    (h : pairInv n et d tX tY ps thX thY) :
    pairInv n et d tX tY (threadStep ps bc thX).1 (threadStep ps bc thX).2.2 thY := by
  obtain ⟨eX, dX, tmX, pcX, acX⟩ := thX
  obtain ⟨h1, h2, h3, h4, h5, h6, h7, h8, h9, h10, h11, h12, h13, h14⟩ := h
  simp only at h1 h2 h3 h7 h8 h10 h12 h14
  subst h1; subst h2; subst h3
  rcases pcX with _ | _ | _ | m
  · -- locked dedup phase
    have hac : acX = false := h8 rfl
    subst hac
    rcases hd : dedupStep ps.dedup eX dX tmX with ⟨dv1, acc⟩
    cases acc with
    | false =>
      simp only [threadStep, hd]
      refine ⟨rfl, rfl, rfl, h4, h5, h6, by simp, by simp, h9, by simp, h11, by simp, h13, ?_⟩
      simp only [persistedCount] at h14 ⊢
      simp at h14 ⊢
      omega
    | true =>
      have hacY : thY.accepted = false := by
        cases hy : thY.accepted with
        | false => rfl
        | true =>
          have hts := h13 hy
          have hrej := dedupStep_time_reject ps.dedup eX dX tmX tY hts hXY
          rw [hrej] at hd
          exact absurd (congrArg Prod.snd hd) (by simp)
      simp only [threadStep, hd]
      refine ⟨rfl, rfl, rfl, h4, h5, h6, by simp [hacY], by simp, h9, fun _ => rfl, h11,
        ?_, ?_, ?_⟩
      · intro _
        exact dedupStep_accept_timestamp ps.dedup eX dX tmX dv1 hd
      · intro hy; rw [hacY] at hy; cases hy
      · simp only [persistedCount] at h14 ⊢
        simp at h14 ⊢
        omega
  · -- persistence phase
    have hac : acX = true := h10 (Or.inl rfl)
    subst hac
    simp only [threadStep]
    refine ⟨rfl, rfl, rfl, h4, h5, h6, by simpa using h7, by simp, h9, fun _ => rfl, h11,
      ?_, ?_, ?_⟩
    · intro _
      rw [persistEvent_dedup]
      exact h12 rfl
    · intro hy
      rw [persistEvent_dedup]
      exact h13 hy
    · rw [persistEvent_length]
      simp only [persistedCount] at h14 ⊢
      simp at h14 ⊢
      omega
  · -- broadcast phase
    have hac : acX = true := h10 (Or.inr rfl)
    subst hac
    simp only [threadStep]
    refine ⟨rfl, rfl, rfl, h4, h5, h6, by simpa using h7, by simp, h9, fun _ => rfl, h11,
      fun _ => h12 rfl, h13, ?_⟩
    simp only [persistedCount] at h14 ⊢
    simp at h14 ⊢
    omega
  · -- already done
    simp only [threadStep]
    exact ⟨rfl, rfl, rfl, h4, h5, h6, h7, h8, h9, h10, h11, h12, h13, h14⟩

theorem atMostOneInv_step (ps0 : PipelineState) (et d : String) (tA tB : Rat)
    (hAB : tA - tB < 2) (hBA : tB - tA < 2) (c : CSys) (who : Bool)
    (h : atMostOneInv ps0 et d tA tB c) :
    atMostOneInv ps0 et d tA tB (schedStep c who) := by
  cases who with
  | false =>
    have hstep := pairInv_step ps0.eventLog.length et d tA tB c.ps c.broadcasts
      c.thA c.thB hAB h
    unfold atMostOneInv schedStep
    rw [if_pos rfl]
    exact hstep
  | true =>
    have hswap := pairInv_swap _ et d tA tB c.ps c.thA c.thB h
    have hstep := pairInv_step ps0.eventLog.length et d tB tA c.ps c.broadcasts
      c.thB c.thA hBA hswap
    have hback := pairInv_swap _ et d tB tA _ _ _ hstep
    unfold atMostOneInv schedStep
    rw [if_neg (by simp)]
    exact hback

theorem atMostOneInv_init (ps0 : PipelineState) (et d : String) (tA tB : Rat) :
    atMostOneInv ps0 et d tA tB (initCSys ps0 (mkThread et d tA) (mkThread et d tB)) := by
  refine ⟨rfl, rfl, rfl, rfl, rfl, rfl, by simp [initCSys, mkThread], fun _ => rfl,
    fun _ => rfl, ?_, ?_, ?_, ?_, ?_⟩
  · intro hx; rcases hx with hx | hx <;> simp [initCSys, mkThread] at hx
  · intro hx; rcases hx with hx | hx <;> simp [initCSys, mkThread] at hx
  · intro hx; simp [initCSys, mkThread] at hx
  · intro hx; simp [initCSys, mkThread] at hx
  · simp [initCSys, mkThread, persistedCount]

theorem runSched_inv (ps0 : PipelineState) (et d : String) (tA tB : Rat)
    (hAB : tA - tB < 2) (hBA : tB - tA < 2) (sched : List Bool) (c : CSys)
    (h : atMostOneInv ps0 et d tA tB c) :
    atMostOneInv ps0 et d tA tB (runSched c sched) := by
  induction sched generalizing c with
  | nil => exact h
  | cons who rest ih =>
    exact ih _ (atMostOneInv_step ps0 et d tA tB hAB hBA c who h)

/-- Counterexample for C4 as stated: two concurrent submissions (with
distinct dedup keys) can interleave inside the dedup-to-broadcast
sequence — both pass their dedup phase before either persists — because
the lock covers only the dedup section, not persistence, statistics or
broadcast. The trace of the exhibited run is not serialized, yet both
events are persisted. -/
theorem log_event_lock_interleaving_cex :
    serializedTrace cexRun.trace = false
    ∧ cexRun.ps.eventLog.length = 2
    ∧ cexRun.thA.accepted = true
    ∧ cexRun.thB.accepted = true := by
  decide

/-- C4 amended: only the duplicate checks and dedup-state updates run
under the lock; persistence, statistics and broadcast run outside it and
may interleave between submissions. Because the dedup phase is atomic
under the lock, two near-simultaneous identical submissions can never
both be accepted, and under every schedule at most one event is
persisted for the pair. -/
theorem log_event_dedup_atomic_at_most_one (ps0 : PipelineState) (et d : String)
    (tA tB : Rat) (sched : List Bool) (hAB : tA - tB < 2) (hBA : tB - tA < 2) :
    ¬((runSched (initCSys ps0 (mkThread et d tA) (mkThread et d tB)) sched).thA.accepted = true
      ∧ (runSched (initCSys ps0 (mkThread et d tA) (mkThread et d tB)) sched).thB.accepted
          = true)
    ∧ (runSched (initCSys ps0 (mkThread et d tA) (mkThread et d tB)) sched).ps.eventLog.length
        ≤ ps0.eventLog.length + 1 := by
  have h := runSched_inv ps0 et d tA tB hAB hBA sched _ (atMostOneInv_init ps0 et d tA tB)
  obtain ⟨g1, g2, g3, g4, g5, g6, h7, h8, h9, h10, h11, h12, h13, h14⟩ := h
  refine ⟨h7, ?_⟩
  rw [h14]
  simp only [persistedCount]
  by_cases ha : 2 ≤ (runSched (initCSys ps0 (mkThread et d tA) (mkThread et d tB)) sched).thA.pc
      ∧ (runSched (initCSys ps0 (mkThread et d tA) (mkThread et d tB)) sched).thA.accepted = true
  · by_cases hb : 2 ≤ (runSched (initCSys ps0 (mkThread et d tA) (mkThread et d tB)) sched).thB.pc
        ∧ (runSched (initCSys ps0 (mkThread et d tA) (mkThread et d tB)) sched).thB.accepted
          = true
    · exact absurd ⟨ha.2, hb.2⟩ h7
    · rw [if_pos ha, if_neg hb]
  · rw [if_neg ha]
    by_cases hb : 2 ≤ (runSched (initCSys ps0 (mkThread et d tA) (mkThread et d tB)) sched).thB.pc
        ∧ (runSched (initCSys ps0 (mkThread et d tA) (mkThread et d tB)) sched).thB.accepted
          = true
    · rw [if_pos hb]
    · rw [if_neg hb]
      omega

/-- Witness for C4 amended: two identical door_open submissions at times
0 and 1 under a serial schedule end with at most one accepted and at most
one persisted event. -/
theorem log_event_dedup_atomic_witness :
    ¬((runSched (initCSys initPipeline (mkThread "door_open" "Door opened" 0)
          (mkThread "door_open" "Door opened" 1))
        [false, true, false, true, false, true]).thA.accepted = true
      ∧ (runSched (initCSys initPipeline (mkThread "door_open" "Door opened" 0)
          (mkThread "door_open" "Door opened" 1))
        [false, true, false, true, false, true]).thB.accepted = true)
    ∧ (runSched (initCSys initPipeline (mkThread "door_open" "Door opened" 0)
          (mkThread "door_open" "Door opened" 1))
        [false, true, false, true, false, true]).ps.eventLog.length
        ≤ initPipeline.eventLog.length + 1 :=
  log_event_dedup_atomic_at_most_one initPipeline "door_open" "Door opened" 0 1
    [false, true, false, true, false, true] (by norm_num) (by norm_num)

end DoorAlarm
